import Mathlib

/-!
Shallow embedding of the library-management backend (src/db.js,
src/routes/books.js, src/routes/borrow.js, src/emailService.js).

The SQLite database is modelled as a `DBState`: the two tables `books`
and `borrows` as lists of records, together with the AUTOINCREMENT
counters for the two primary keys. Dates (stored as ISO strings in the
source, compared by the usual order) are modelled as integer
millisecond timestamps. Each exported function of db.js becomes a pure
function on `DBState`; functions that throw become `Except`.
-/

namespace LibSpec

/-- A row of the `books` table: id, title, author, isbn (UNIQUE),
available (DEFAULT TRUE). -/
structure Book where
  id : Nat
  title : String
  author : String
  isbn : String
  available : Bool
  deriving DecidableEq, Repr

/-- A row of the `borrows` table: id, book_id, user_email, borrow_date,
return_date, returned (DEFAULT FALSE). -/
structure Loan where
  id : Nat
  book_id : Nat
  user_email : String
  borrow_date : Int
  return_date : Int
  returned : Bool
  deriving DecidableEq, Repr

/-- A row produced by `SELECT b.*, books.title, books.author FROM borrows b
JOIN books ON b.book_id = books.id`. -/
structure JoinedBorrow where
  id : Nat
  book_id : Nat
  user_email : String
  borrow_date : Int
  return_date : Int
  returned : Bool
  title : String
  author : String
  deriving DecidableEq, Repr

/-- The whole persistent state: the two tables plus the AUTOINCREMENT
counters (SQLite assigns ids 1, 2, ... and never reuses them). -/
structure DBState where
  books : List Book
  borrows : List Loan
  nextBookId : Nat
  nextBorrowId : Nat
  deriving DecidableEq, Repr

/-- The freshly created database of initDB: both tables empty. -/
def initialState : DBState := ⟨[], [], 1, 1⟩

/-- One day in milliseconds (the divisor 1000*60*60*24 in emailService.js). -/
def dayMs : Int := 86400000

inductive DBError where
  | uniqueViolation
  | sqlSyntax
  deriving DecidableEq, Repr

inductive BorrowError where
  | bookNotFound
  | bookNotAvailable
  deriving DecidableEq, Repr

inductive ReturnError where
  | borrowNotFound
  deriving DecidableEq, Repr

/-- db.js getBookById: `SELECT * FROM books WHERE id = ?` (first match). -/
def getBookById (st : DBState) (id : Nat) : Option Book :=
  st.books.find? (fun b => b.id == id)

/-- db.js addBook: `INSERT INTO books (title, author, isbn) VALUES (?,?,?)`;
the UNIQUE constraint on isbn makes the insert throw when the isbn is
already present, otherwise the row gets the next id and available = TRUE. -/
def addBook (st : DBState) (title author isbn : String) :
    Except DBError DBState :=
  if st.books.any (fun b => b.isbn == isbn) then
    .error .uniqueViolation
  else
    .ok { st with
            books := st.books ++ [⟨st.nextBookId, title, author, isbn, true⟩],
            nextBookId := st.nextBookId + 1 }

/-- The `{ title, author, isbn }` argument of updateBook: each field may be
absent (undefined) or a string. -/
structure UpdateData where
  title : Option String
  author : Option String
  isbn : Option String
  deriving DecidableEq, Repr

/-- JavaScript truthiness of an optional string field: undefined and the
empty string are falsy (the `if (title)` checks in updateBook). -/
def truthy (o : Option String) : Bool :=
  match o with
  | none => false
  | some s => !(s == "")

/-- The effect of the built UPDATE statement on the matched row: each truthy
field overwrites the column, every other column is untouched. -/
def applyUpd (b : Book) (d : UpdateData) : Book :=
  { b with
      title := if truthy d.title then d.title.getD b.title else b.title,
      author := if truthy d.author then d.author.getD b.author else b.author,
      isbn := if truthy d.isbn then d.isbn.getD b.isbn else b.isbn }

/-- db.js updateBook: returns null when the book is absent; otherwise builds
`UPDATE books SET <updates> WHERE id = ?` from the truthy fields. With no
truthy field the SQL is malformed and prepare throws; setting isbn to a
value held by a different row violates the UNIQUE constraint and throws;
otherwise the row is updated and the updated book is re-read. -/
def updateBook (st : DBState) (id : Nat) (d : UpdateData) :
    Except DBError (DBState × Option Book) :=
  match getBookById st id with
  | none => .ok (st, none)
  | some _ =>
    if !truthy d.title && !truthy d.author && !truthy d.isbn then
      .error .sqlSyntax
    else if truthy d.isbn &&
        st.books.any (fun b => b.isbn == d.isbn.getD "" && b.id != id) then
      .error .uniqueViolation
    else
      let st' : DBState :=
        { st with books := st.books.map (fun b => if b.id == id then applyUpd b d else b) }
      .ok (st', getBookById st' id)

/-- db.js deleteBook: `DELETE FROM books WHERE id = ?`; returns whether a
row was removed. The `borrows` table is untouched (no cascade). -/
def deleteBook (st : DBState) (id : Nat) : DBState × Bool :=
  ({ st with books := st.books.filter (fun b => b.id != id) },
   st.books.any (fun b => b.id == id))

/-- db.js addBorrow: looks the book up (throws when absent), throws when
`available` is false, otherwise sets the book unavailable and inserts the
loan with return_date = borrow_date + 14 days. The value returned to the
caller identifies the inserted row. -/
def addBorrow (st : DBState) (bookId : Nat) (userEmail : String) (now : Int) :
    Except BorrowError (DBState × Loan) :=
  match getBookById st bookId with
  | none => .error .bookNotFound
  | some book =>
    if !book.available then
      .error .bookNotAvailable
    else
      let loan : Loan := ⟨st.nextBorrowId, bookId, userEmail, now, now + 14 * dayMs, false⟩
      .ok ({ st with
              books := st.books.map
                (fun b => if b.id == bookId then { b with available := false } else b),
              borrows := st.borrows ++ [loan],
              nextBorrowId := st.nextBorrowId + 1 },
           loan)

def joinRow (b : Loan) (bk : Book) : JoinedBorrow :=
  ⟨b.id, b.book_id, b.user_email, b.borrow_date, b.return_date, b.returned,
   bk.title, bk.author⟩

/-- db.js getPendingReturns: borrows JOIN books ON book_id = books.id
WHERE returned = FALSE AND return_date >= now. -/
def getPendingReturns (st : DBState) (now : Int) : List JoinedBorrow :=
  (st.borrows.filter (fun b => !b.returned && decide (now ≤ b.return_date))).flatMap
    (fun b => (st.books.filter (fun bk => b.book_id == bk.id)).map (joinRow b))

/-- db.js getOverdueBooks: borrows JOIN books ON book_id = books.id
WHERE returned = FALSE AND return_date < now. -/
def getOverdueBooks (st : DBState) (now : Int) : List JoinedBorrow :=
  (st.borrows.filter (fun b => !b.returned && decide (b.return_date < now))).flatMap
    (fun b => (st.books.filter (fun bk => b.book_id == bk.id)).map (joinRow b))

/-- db.js markAsReturned: looks the borrow row up (throws when absent), sets
the referenced book available = TRUE, sets the borrow returned = TRUE, and
returns whether the borrow UPDATE matched a row. -/
def markAsReturned (st : DBState) (borrowId : Nat) :
    Except ReturnError (DBState × Bool) :=
  match st.borrows.find? (fun b => b.id == borrowId) with
  | none => .error .borrowNotFound
  | some borrow =>
    .ok ({ st with
            books := st.books.map
              (fun b => if b.id == borrow.book_id then { b with available := true } else b),
            borrows := st.borrows.map
              (fun b => if b.id == borrowId then { b with returned := true } else b) },
         st.borrows.any (fun b => b.id == borrowId))

/-- The whitespace class of the JavaScript regex escape used in
borrow.js email validation. -/
def jsWhitespace (c : Char) : Bool :=
  c == ' ' || c == '\t' || c == '\n' || c == '\r' || c == '\x0b' || c == '\x0c' ||
  c == '\u00A0' || c == '\u1680' ||
  (decide (0x2000 ≤ c.toNat) && decide (c.toNat ≤ 0x200A)) ||
  c == '\u2028' || c == '\u2029' || c == '\u202F' || c == '\u205F' || c == '\u3000' ||
  c == '\uFEFF'

/-- Whether the character list has a dot strictly inside it (neither first
nor last position). -/
def hasInnerDot (cs : List Char) : Bool :=
  (List.range cs.length).any
    (fun i => decide (1 ≤ i) && decide (i + 1 < cs.length) && (cs.getD i ' ' == '.'))

/-- borrow.js email check: the regex demands a nonempty run of
non-whitespace non-at characters, one at sign, and a domain of such
characters containing a dot with nonempty pieces on both sides.
Equivalently: no whitespace anywhere, exactly one at sign, not in first
position, and a dot strictly inside the part after the at sign. -/
def validEmail (s : String) : Bool :=
  let cs := s.toList
  cs.all (fun c => !jsWhitespace c) &&
  (cs.count '@' == 1) &&
  (match cs.findIdx? (fun c => c == '@') with
   | none => false
   | some i => decide (0 < i) && hasInnerDot (cs.drop (i + 1)))

/-- borrow.js POST /borrow: body validation (falsy bookId or userEmail,
then the email regex), 404 when the book is absent, then addBorrow;
a thrown `Book is not available` maps to 400, any other throw to 500.
When addBorrow succeeded, sendBorrowEmail runs (`emailOk` says whether it
resolves); on success the response carries the addBorrow result and a
returnDate recomputed as now + 14 days. The result is the final state,
the HTTP status and the success payload. -/
def borrowHandler (st : DBState) (bookId : Nat) (userEmail : String)
    (now : Int) (emailOk : Bool) : DBState × Nat × Option (Loan × Int) :=
  if bookId == 0 || userEmail == "" then (st, 400, none)
  else if !validEmail userEmail then (st, 400, none)
  else
    match getBookById st bookId with
    | none => (st, 404, none)
    | some _ =>
      match addBorrow st bookId userEmail now with
      | .error .bookNotAvailable => (st, 400, none)
      | .error .bookNotFound => (st, 500, none)
      | .ok (st', loan) =>
        if emailOk then (st', 200, some (loan, now + 14 * dayMs))
        else (st', 500, none)

/-- borrow.js POST /return/:borrowId: markAsReturned; a thrown
`Borrow record not found` maps to 404, a false result also to 404,
otherwise 200. -/
def returnHandler (st : DBState) (borrowId : Nat) : DBState × Nat :=
  match markAsReturned st borrowId with
  | .error .borrowNotFound => (st, 404)
  | .ok (st', r) => if r then (st', 200) else (st', 404)

/-- books.js PUT /books/:id: 400 when no field of the body is truthy,
otherwise updateBook; null maps to 404, a thrown error to 500,
otherwise 200 with the updated book. -/
def putBookHandler (st : DBState) (id : Nat) (d : UpdateData) :
    DBState × Nat × Option Book :=
  if !truthy d.title && !truthy d.author && !truthy d.isbn then (st, 400, none)
  else
    match updateBook st id d with
    | .error _ => (st, 500, none)
    | .ok (st', none) => (st', 404, none)
    | .ok (st', some bk) => (st', 200, some bk)

/-- Integer ceiling division for a positive divisor (Math.ceil of the exact
quotient). -/
def ceilDiv (a b : Int) : Int := -((-a).ediv b)

/-- emailService.js: `Math.ceil((returnDate - today) / (1000*60*60*24))`. -/
def daysUntilDue (returnDate now : Int) : Int := ceilDiv (returnDate - now) dayMs

/-- emailService.js due-soon cron body: amongst getPendingReturns, the rows
for which a reminder email is sent, i.e. those with
`daysUntilDue <= 2 && daysUntilDue > 0`. -/
def dueSoonReminders (st : DBState) (now : Int) : List JoinedBorrow :=
  (getPendingReturns st now).filter
    (fun b => decide (daysUntilDue b.return_date now ≤ 2) &&
              decide (0 < daysUntilDue b.return_date now))

/-- The states reachable from the fresh database by the public operations;
a failed (throwing) operation leaves the state unchanged, so only the
successful outcomes generate new states. -/
inductive Reachable : DBState → Prop where
  | init : Reachable initialState
  | addBook_step (st st' : DBState) (t a i : String) :
      Reachable st → addBook st t a i = .ok st' → Reachable st'
  | updateBook_step (st st' : DBState) (id : Nat) (d : UpdateData) (r : Option Book) :
      Reachable st → updateBook st id d = .ok (st', r) → Reachable st'
  | deleteBook_step (st : DBState) (id : Nat) :
      Reachable st → Reachable (deleteBook st id).1
  | addBorrow_step (st st' : DBState) (bid : Nat) (em : String) (now : Int) (loan : Loan) :
      Reachable st → addBorrow st bid em now = .ok (st', loan) → Reachable st'
  | markAsReturned_step (st st' : DBState) (bid : Nat) (r : Bool) :
      Reachable st → markAsReturned st bid = .ok (st', r) → Reachable st'

/-- Some active (unreturned) loan in the state references the given book id. -/
def ActiveLoanFor (st : DBState) (bid : Nat) : Prop :=
  ∃ L ∈ st.borrows, L.book_id = bid ∧ L.returned = false

/-- The inductive invariant: loan ids are below the counter and pairwise
distinct, and an unavailable book always has an active loan. -/
def GoodState (st : DBState) : Prop :=
  (∀ L ∈ st.borrows, L.id < st.nextBorrowId) ∧
  st.borrows.Pairwise (fun a b => a.id ≠ b.id) ∧
  (∀ bk ∈ st.books, bk.available = false → ActiveLoanFor st bk.id)

/-- State after adding book 1 to the fresh database. -/
def cexA : DBState := ⟨[⟨1, "T", "A", "I", true⟩], [], 2, 1⟩

/-- State after borrowing book 1 (loan 1, at time 0). -/
def cexB : DBState :=
  ⟨[⟨1, "T", "A", "I", false⟩], [⟨1, 1, "e@x.co", 0, 1209600000, false⟩], 2, 2⟩

/-- State after returning loan 1. -/
def cexC : DBState :=
  ⟨[⟨1, "T", "A", "I", true⟩], [⟨1, 1, "e@x.co", 0, 1209600000, true⟩], 2, 2⟩

/-- State after borrowing book 1 again (loan 2). -/
def cexD : DBState :=
  ⟨[⟨1, "T", "A", "I", false⟩],
   [⟨1, 1, "e@x.co", 0, 1209600000, true⟩, ⟨2, 1, "e@x.co", 0, 1209600000, false⟩], 2, 3⟩

/-- State after returning loan 1 a second time: book 1 is available again
even though loan 2 is still active. -/
def cexE : DBState :=
  ⟨[⟨1, "T", "A", "I", true⟩],
   [⟨1, 1, "e@x.co", 0, 1209600000, true⟩, ⟨2, 1, "e@x.co", 0, 1209600000, false⟩], 2, 3⟩

/-- State with two books carrying distinct isbns I and J. -/
def cexF : DBState :=
  ⟨[⟨1, "T", "A", "I", true⟩, ⟨2, "U", "B", "J", true⟩], [], 3, 1⟩


/-- If loan ids are pairwise distinct, a shared id identifies the loan. -/
theorem pairwise_ne_unique {l : List Loan} (hp : l.Pairwise (fun a b => a.id ≠ b.id))
    {a b : Loan} (ha : a ∈ l) (hb : b ∈ l) (hid : a.id = b.id) : a = b := by
  by_cases hab : a = b
  · exact hab
  · exact absurd hid (List.Pairwise.forall (fun x y h => (h ∘ Eq.symm : y.id ≠ x.id)) hp ha hb hab)

/-- Every reachable state satisfies the inductive invariant. -/
theorem reachable_good (st : DBState) (h : Reachable st) : GoodState st := by
  induction h with
  | init =>
    refine ⟨?_, ?_, ?_⟩ <;> simp [initialState]
  | addBook_step st st' t a i hr heq ih =>
    unfold addBook at heq
    split at heq
    · simp at heq
    · injection heq with h1
      subst h1
      obtain ⟨ihB, ihP, ihA⟩ := ih
      refine ⟨ihB, ihP, ?_⟩
      intro bk hbk hav
      rcases List.mem_append.1 hbk with h1 | h1
      · exact ihA bk h1 hav
      · simp at h1; subst h1; simp at hav
  | updateBook_step st st' id d r hr heq ih =>
    unfold updateBook at heq
    split at heq
    · injection heq with h1
      injection h1 with h2 h3
      subst h2
      exact ih
    · split at heq
      · simp at heq
      · split at heq
        · simp at heq
        · injection heq with h1
          injection h1 with h2 h3
          subst h2
          obtain ⟨ihB, ihP, ihA⟩ := ih
          refine ⟨ihB, ihP, ?_⟩
          intro bk hbk hav
          rcases List.mem_map.1 hbk with ⟨b0, hb0, rfl⟩
          have hid : (if b0.id == id then applyUpd b0 d else b0).id = b0.id := by
            split <;> rfl
          have hav' : b0.available = false := by
            revert hav
            split <;> (intro hav; exact hav)
          rw [hid]
          exact ihA b0 hb0 hav'
  | deleteBook_step st id hr ih =>
    obtain ⟨ihB, ihP, ihA⟩ := ih
    refine ⟨ihB, ihP, ?_⟩
    intro bk hbk hav
    exact ihA bk (List.mem_of_mem_filter hbk) hav
  | addBorrow_step st st' bid em now loan hr heq ih =>
    unfold addBorrow at heq
    split at heq
    · simp at heq
    · split at heq
      · simp at heq
      · injection heq with h1
        injection h1 with h2 h3
        subst h2
        obtain ⟨ihB, ihP, ihA⟩ := ih
        refine ⟨?_, ?_, ?_⟩
        · intro L hL
          rcases List.mem_append.1 hL with h4 | h4
          · exact Nat.lt_succ_of_lt (ihB L h4)
          · simp at h4; subst h4; exact Nat.lt_succ_self _
        · rw [List.pairwise_append]
          refine ⟨ihP, by simp, ?_⟩
          intro x hx y hy
          simp at hy; subst hy
          exact Nat.ne_of_lt (ihB x hx)
        · intro bk hbk hav
          rcases List.mem_map.1 hbk with ⟨b0, hb0, rfl⟩
          have hid : (if b0.id == bid then { b0 with available := false } else b0).id = b0.id := by
            split <;> rfl
          rw [hid]
          by_cases hb : b0.id = bid
          · exact ⟨⟨st.nextBorrowId, bid, em, now, now + 14 * dayMs, false⟩,
              List.mem_append_right _ (by simp), hb.symm, rfl⟩
          · rw [if_neg (by simp [hb])] at hav
            obtain ⟨L, hL, hLb, hLr⟩ := ihA b0 hb0 hav
            exact ⟨L, List.mem_append_left _ hL, hLb, hLr⟩
  | markAsReturned_step st st' bid r hr heq ih =>
    unfold markAsReturned at heq
    split at heq
    · simp at heq
    · rename_i borrow hfind
      injection heq with h1
      injection h1 with h2 h3
      subst h2
      obtain ⟨ihB, ihP, ihA⟩ := ih
      have hbmem : borrow ∈ st.borrows := List.mem_of_find?_eq_some hfind
      have hbid : borrow.id = bid := by simpa using List.find?_some hfind
      refine ⟨?_, ?_, ?_⟩
      · intro L hL
        rcases List.mem_map.1 hL with ⟨L0, hL0, rfl⟩
        have : (if L0.id == bid then { L0 with returned := true } else L0).id = L0.id := by
          split <;> rfl
        rw [this]
        exact ihB L0 hL0
      · rw [List.pairwise_map]
        refine ihP.imp ?_
        intro x y hxy
        have hx : (if x.id == bid then { x with returned := true } else x).id = x.id := by
          split <;> rfl
        have hy : (if y.id == bid then { y with returned := true } else y).id = y.id := by
          split <;> rfl
        rw [hx, hy]
        exact hxy
      · intro bk hbk hav
        rcases List.mem_map.1 hbk with ⟨b0, hb0, rfl⟩
        by_cases hb : b0.id = borrow.book_id
        · rw [if_pos (by simp [hb])] at hav
          simp at hav
        · rw [if_neg (by simp [hb])] at hav ⊢
          obtain ⟨L, hL, hLb, hLr⟩ := ihA b0 hb0 hav
          have hLne : L.id ≠ bid := by
            intro hEq
            have hLB : L = borrow := pairwise_ne_unique ihP hL hbmem (hEq.trans hbid.symm)
            exact hb (by rw [← hLb, hLB])
          have hgL : (if L.id == bid then { L with returned := true } else L) = L :=
            if_neg (by simp [hLne])
          exact ⟨L, by rw [← hgL]; exact List.mem_map_of_mem _ hL, hLb, hLr⟩


/-- Execution witness: the state after addBook and addBorrow is reachable. -/
theorem cexB_reachable : Reachable cexB :=
  .addBorrow_step cexA cexB 1 "e@x.co" 0 ⟨1, 1, "e@x.co", 0, 1209600000, false⟩
    (.addBook_step initialState cexA "T" "A" "I" .init rfl) rfl

/-- Execution witness: addBook, addBorrow, markAsReturned, addBorrow again,
markAsReturned on the stale loan again — all successful, so cexE is
reachable. -/
theorem cexE_reachable : Reachable cexE :=
  .markAsReturned_step cexD cexE 1 true
    (.addBorrow_step cexC cexD 1 "e@x.co" 0 ⟨2, 1, "e@x.co", 0, 1209600000, false⟩
      (.markAsReturned_step cexB cexC 1 true cexB_reachable rfl) rfl) rfl

/-- A string accepted by the email regex is nonempty. -/
theorem validEmail_ne_empty {email : String} (hem : validEmail email = true) :
    (email == "") = false := by
  by_cases he : email = ""
  · subst he; exact absurd hem (by decide)
  · simp [he]

/-- A successful find? makes any true for the same predicate. -/
theorem find?_any_true {l : List Loan} {p : Loan → Bool} {a : Loan}
    (h : l.find? p = some a) : l.any p = true :=
  List.any_eq_true.2 ⟨a, List.mem_of_find?_eq_some h, List.find?_some h⟩

/-- Membership in getPendingReturns: exactly the joins of an unreturned loan
not yet past due with an existing book of the referenced id. -/
theorem mem_pending_aux (st : DBState) (now : Int) (r : JoinedBorrow) :
    r ∈ getPendingReturns st now ↔
      ∃ L ∈ st.borrows, ∃ bk ∈ st.books,
        L.book_id = bk.id ∧ L.returned = false ∧ now ≤ L.return_date ∧ r = joinRow L bk := by
  simp only [getPendingReturns, List.mem_flatMap, List.mem_filter, List.mem_map,
    Bool.and_eq_true, Bool.not_eq_true', decide_eq_true_eq, beq_iff_eq]
  constructor
  · rintro ⟨L, ⟨hL, hret, hle⟩, bk, ⟨hbk, hid⟩, rfl⟩
    exact ⟨L, hL, bk, hbk, hid, hret, hle, rfl⟩
  · rintro ⟨L, hL, bk, hbk, hid, hret, hle, rfl⟩
    exact ⟨L, ⟨hL, hret, hle⟩, bk, ⟨hbk, hid⟩, rfl⟩

/-- Membership in getOverdueBooks: exactly the joins of an unreturned loan
past due with an existing book of the referenced id. -/
theorem mem_overdue_aux (st : DBState) (now : Int) (r : JoinedBorrow) :
    r ∈ getOverdueBooks st now ↔
      ∃ L ∈ st.borrows, ∃ bk ∈ st.books,
        L.book_id = bk.id ∧ L.returned = false ∧ L.return_date < now ∧ r = joinRow L bk := by
  simp only [getOverdueBooks, List.mem_flatMap, List.mem_filter, List.mem_map,
    Bool.and_eq_true, Bool.not_eq_true', decide_eq_true_eq, beq_iff_eq]
  constructor
  · rintro ⟨L, ⟨hL, hret, hlt⟩, bk, ⟨hbk, hid⟩, rfl⟩
    exact ⟨L, hL, bk, hbk, hid, hret, hlt, rfl⟩
  · rintro ⟨L, hL, bk, hbk, hid, hret, hlt, rfl⟩
    exact ⟨L, ⟨hL, hret, hlt⟩, bk, ⟨hbk, hid⟩, rfl⟩

/-- Claim C1, counterexample: the stated availability iff-invariant fails in
a reachable state. Reaching cexE by addBook, borrow, return, borrow again
and a second return of the stale loan leaves book 1 available = true while
loan 2 is still active, refuting the right-to-left direction. -/
theorem availability_iff_cex :
    ¬ (∀ st : DBState, Reachable st → ∀ bk ∈ st.books,
        (bk.available = false ↔ ∃ L ∈ st.borrows, L.book_id = bk.id ∧ L.returned = false)) := by
  intro h
  have hb : (⟨1, "T", "A", "I", true⟩ : Book) ∈ cexE.books := by decide
  have h2 := (h cexE cexE_reachable _ hb).mpr
    ⟨⟨2, 1, "e@x.co", 0, 1209600000, false⟩, by decide, rfl, rfl⟩
  exact absurd h2 (by decide)

/-- Claim C1, amended: in every state reachable by the public operations,
a book whose available flag is false has an active (unreturned) loan
referencing it. The converse direction of the original claim is refuted by
the counterexample above. -/
theorem availFalse_implies_activeLoan (st : DBState) (h : Reachable st) :
    ∀ bk ∈ st.books, bk.available = false →
      ∃ L ∈ st.borrows, L.book_id = bk.id ∧ L.returned = false :=
  (reachable_good st h).2.2

/-- Witness for claim C1: in the reachable state cexB the unavailable book 1
indeed has an active loan. -/
theorem availFalse_implies_activeLoan_witness :
    ∃ L ∈ cexB.borrows, L.book_id = 1 ∧ L.returned = false :=
  availFalse_implies_activeLoan cexB cexB_reachable ⟨1, "T", "A", "I", false⟩
    (by decide) rfl

/-- Claim C2: a borrow request for an existing available book, with a valid
request body and a successful confirmation email, responds 200, flips the
book to unavailable, appends exactly one new loan with returned = false and
return_date = borrow_date + 14 days, and carries that loan and the computed
return date in the response. -/
theorem borrow_available_succeeds (st : DBState) (bookId : Nat) (email : String)
    (now : Int) (book : Book)
    (hid : bookId ≠ 0) (hem : validEmail email = true)
    (hbook : getBookById st bookId = some book) (hav : book.available = true) :
    borrowHandler st bookId email now true =
      ({ st with
          books := st.books.map
            (fun b => if b.id == bookId then { b with available := false } else b),
          borrows := st.borrows ++ [⟨st.nextBorrowId, bookId, email, now, now + 14 * dayMs, false⟩],
          nextBorrowId := st.nextBorrowId + 1 },
       200,
       some (⟨st.nextBorrowId, bookId, email, now, now + 14 * dayMs, false⟩, now + 14 * dayMs)) := by
  have h0 : (bookId == 0) = false := by simp [hid]
  unfold borrowHandler addBorrow
  rw [hbook]
  simp [h0, validEmail_ne_empty hem, hem, hav]

/-- Witness for claim C2 at a concrete state. -/
theorem borrow_available_succeeds_witness :
    borrowHandler cexA 1 "e@x.co" 0 true =
      (cexB, 200, some (⟨1, 1, "e@x.co", 0, 1209600000, false⟩, 1209600000)) :=
  borrow_available_succeeds cexA 1 "e@x.co" 0 ⟨1, "T", "A", "I", true⟩
    (by decide) (by decide) rfl rfl

/-- Claim C3: a borrow request for an existing unavailable book responds 400
(BusinessRuleViolation) and returns the state unchanged: no loan is created
and no book or loan record is modified. -/
theorem borrow_unavailable_fails (st : DBState) (bookId : Nat) (email : String)
    (now : Int) (book : Book) (emailOk : Bool)
    (hid : bookId ≠ 0) (hem : validEmail email = true)
    (hbook : getBookById st bookId = some book) (hav : book.available = false) :
    borrowHandler st bookId email now emailOk = (st, 400, none) := by
  have h0 : (bookId == 0) = false := by simp [hid]
  unfold borrowHandler addBorrow
  rw [hbook]
  simp [h0, validEmail_ne_empty hem, hem, hav]

/-- Witness for claim C3 at a concrete state. -/
theorem borrow_unavailable_fails_witness :
    borrowHandler cexB 1 "e@x.co" 0 true = (cexB, 400, none) :=
  borrow_unavailable_fails cexB 1 "e@x.co" 0 ⟨1, "T", "A", "I", false⟩ true
    (by decide) (by decide) rfl rfl

/-- Claim C4: the return endpoint responds 404 exactly when no loan with the
given id exists; for an existing active loan it responds 200 after setting
the loan returned = true and the referenced book available = true. -/
theorem returnLoan_spec (st : DBState) (loanId : Nat) :
    ((returnHandler st loanId).2 = 404 ↔ ¬ ∃ L ∈ st.borrows, L.id = loanId) ∧
    (∀ loan, st.borrows.find? (fun b => b.id == loanId) = some loan → loan.returned = false →
      returnHandler st loanId =
        ({ st with
            books := st.books.map
              (fun b => if b.id == loan.book_id then { b with available := true } else b),
            borrows := st.borrows.map
              (fun b => if b.id == loanId then { b with returned := true } else b) },
         200)) := by
  constructor
  · cases hfind : st.borrows.find? (fun b => b.id == loanId) with
    | none =>
      unfold returnHandler markAsReturned
      rw [hfind]
      simp
      intro L hL
      have := List.find?_eq_none.1 hfind L hL
      simpa using this
    | some loan =>
      unfold returnHandler markAsReturned
      rw [hfind]
      simp [find?_any_true hfind]
      exact ⟨loan, List.mem_of_find?_eq_some hfind, by simpa using List.find?_some hfind⟩
  · intro loan hfind hret
    unfold returnHandler markAsReturned
    rw [hfind]
    simp [find?_any_true hfind]

/-- Witness for claim C4: returning the active loan of cexB yields cexC. -/
theorem returnLoan_spec_witness : returnHandler cexB 1 = (cexC, 200) :=
  (returnLoan_spec cexB 1).2 ⟨1, 1, "e@x.co", 0, 1209600000, false⟩ rfl rfl

/-- Claim C5: calling markAsReturned on a loan that is already returned
succeeds with result true and changes nothing except re-setting the
referenced book available = true: the borrows table and every book with a
different id are untouched. -/
theorem doubleReturn_noop (st : DBState) (loanId : Nat) (loan : Loan)
    (hfind : st.borrows.find? (fun b => b.id == loanId) = some loan)
    (hall : ∀ L ∈ st.borrows, L.id = loanId → L.returned = true) :
    markAsReturned st loanId =
      .ok ({ st with
              books := st.books.map
                (fun b => if b.id == loan.book_id then { b with available := true } else b) },
           true) := by
  unfold markAsReturned
  rw [hfind]
  have hmap : st.borrows.map
      (fun b => if b.id == loanId then { b with returned := true } else b) = st.borrows := by
    have hcong : ∀ b ∈ st.borrows,
        (if b.id == loanId then { b with returned := true } else b) = b := by
      intro b hb
      by_cases hbid : b.id = loanId
      · rw [if_pos (by simp [hbid])]
        have hr := hall b hb hbid
        cases b
        simp at hr
        simp [hr]
      · exact if_neg (by simp [hbid])
    rw [List.map_congr_left hcong]
    simp
  rw [hmap, find?_any_true hfind]

/-- Witness for claim C5: returning the already-returned loan of cexC is a
successful no-op (the book is already available). -/
theorem doubleReturn_noop_witness :
    markAsReturned cexC 1 = .ok (cexC, true) :=
  doubleReturn_noop cexC 1 ⟨1, 1, "e@x.co", 0, 1209600000, true⟩ rfl (by decide)

/-- Claim C6: the due-soon cron sends a reminder for a row of
getPendingReturns exactly when daysUntilDue, the ceiling of
(return_date - now) / 1 day, satisfies 0 < daysUntilDue <= 2; rows due in 0
or fewer days get none from this trigger. -/
theorem dueSoon_reminder_iff (st : DBState) (now : Int) (r : JoinedBorrow) :
    r ∈ dueSoonReminders st now ↔
      r ∈ getPendingReturns st now ∧
      0 < daysUntilDue r.return_date now ∧ daysUntilDue r.return_date now ≤ 2 := by
  simp only [dueSoonReminders, List.mem_filter, Bool.and_eq_true, decide_eq_true_eq]
  tauto

/-- Witness for claim C6: one day before the due date the pending row of
cexB is a reminder candidate with daysUntilDue = 1. -/
theorem dueSoon_reminder_iff_witness :
    (⟨1, 1, "e@x.co", 0, 1209600000, false, "T", "A"⟩ : JoinedBorrow) ∈
        getPendingReturns cexB 1123200000 ∧
      0 < daysUntilDue 1209600000 1123200000 ∧ daysUntilDue 1209600000 1123200000 ≤ 2 :=
  (dueSoon_reminder_iff cexB 1123200000 ⟨1, 1, "e@x.co", 0, 1209600000, false, "T", "A"⟩).mp
    (by decide)

/-- Claim C7: getOverdueBooks returns exactly the rows joining an unreturned
loan whose return_date is before now with its existing book (carrying the
book title and author); a returned loan never contributes a row. -/
theorem overdue_mem_iff (st : DBState) (now : Int) (r : JoinedBorrow) :
    r ∈ getOverdueBooks st now ↔
      ∃ L ∈ st.borrows, ∃ bk ∈ st.books,
        L.book_id = bk.id ∧ L.returned = false ∧ L.return_date < now ∧ r = joinRow L bk :=
  mem_overdue_aux st now r

/-- Witness for claim C7: just after the due date the active loan of cexB is
listed as overdue. -/
theorem overdue_mem_iff_witness :
    ∃ L ∈ cexB.borrows, ∃ bk ∈ cexB.books,
      L.book_id = bk.id ∧ L.returned = false ∧ L.return_date < 1209600001 ∧
      (⟨1, 1, "e@x.co", 0, 1209600000, false, "T", "A"⟩ : JoinedBorrow) = joinRow L bk :=
  (overdue_mem_iff cexB 1209600001 ⟨1, 1, "e@x.co", 0, 1209600000, false, "T", "A"⟩).mp
    (by decide)

/-- Claim C8, counterexample: the frozen claim quantifies over every
partial update with at least one provided field, but providing an isbn
already held by a different book makes the UPDATE violate the UNIQUE
constraint and throw instead of applying the fields: at cexF, setting the
isbn of book 1 to the isbn J of book 2 does not produce the updated
record. -/
theorem updateBook_frame_cex :
    ¬ (∀ (st : DBState) (id : Nat) (d : UpdateData) (book : Book),
        getBookById st id = some book →
        (truthy d.title || truthy d.author || truthy d.isbn) = true →
        updateBook st id d =
          .ok ({ st with
                  books := st.books.map (fun b => if b.id == id then applyUpd b d else b) },
               some (applyUpd book d))) := by
  intro h
  have h1 := h cexF 1 ⟨none, none, some "J"⟩ ⟨1, "T", "A", "I", true⟩ rfl (by decide)
  have h2 : updateBook cexF 1 ⟨none, none, some "J"⟩ = .error .uniqueViolation := rfl
  rw [h2] at h1
  exact Except.noConfusion h1

/-- Claim C8, amended: the book update rejects an all-falsy body with 400
before touching the catalog and responds 404 when the book does not exist;
for an existing book and at least one truthy field, when the provided isbn
(if any) is not held by a different book, it rewrites exactly the truthy
fields of exactly that book — applyUpd keeps id, available and every
non-truthy field, the map keeps every other record, and the borrows table
and counters are untouched — and when the provided isbn is held by a
different book, updateBook throws the UNIQUE violation and the route
responds 500 with the state unchanged. -/
theorem updateBook_frame (st : DBState) (id : Nat) (d : UpdateData) :
    ((truthy d.title || truthy d.author || truthy d.isbn) = false →
      putBookHandler st id d = (st, 400, none)) ∧
    ((truthy d.title || truthy d.author || truthy d.isbn) = true →
      (getBookById st id = none → putBookHandler st id d = (st, 404, none)) ∧
      (∀ book, getBookById st id = some book →
        (∀ b ∈ st.books, truthy d.isbn = true → b.isbn = d.isbn.getD "" → b.id = id) →
        updateBook st id d =
          .ok ({ st with
                  books := st.books.map (fun b => if b.id == id then applyUpd b d else b) },
               some (applyUpd book d)) ∧
        putBookHandler st id d =
          ({ st with
              books := st.books.map (fun b => if b.id == id then applyUpd b d else b) },
           200, some (applyUpd book d)))) ∧
    (∀ book, getBookById st id = some book → truthy d.isbn = true →
      (∃ b ∈ st.books, b.isbn = d.isbn.getD "" ∧ b.id ≠ id) →
      updateBook st id d = .error .uniqueViolation ∧
      putBookHandler st id d = (st, 500, none)) := by
  refine ⟨?_, ?_, ?_⟩
  · intro hfalse
    simp only [Bool.or_eq_false_iff] at hfalse
    obtain ⟨⟨h1, h2⟩, h3⟩ := hfalse
    unfold putBookHandler
    simp [h1, h2, h3]
  · intro htrue
    have hguard : (!truthy d.title && !truthy d.author && !truthy d.isbn) = false := by
      rcases Bool.or_eq_true_iff.1 htrue with h | h
      · rcases Bool.or_eq_true_iff.1 h with h2 | h2
        · simp [h2]
        · simp [h2]
      · simp [h]
    constructor
    · intro hnone
      unfold putBookHandler updateBook
      rw [hnone, hguard]
      simp
    · intro book hbook hconf
      have hconfb : (truthy d.isbn &&
          st.books.any (fun b => b.isbn == d.isbn.getD "" && b.id != id)) = false := by
        by_cases hti : truthy d.isbn = true
        · have : st.books.any (fun b => b.isbn == d.isbn.getD "" && b.id != id) = false := by
            rw [List.any_eq_false]
            intro b hb
            simp only [Bool.and_eq_true, beq_iff_eq, bne_iff_ne, not_and]
            intro hisbn
            simp only [ne_eq, not_not]
            exact hconf b hb hti hisbn
          simp [this]
        · simp [Bool.not_eq_true] at hti
          simp [hti]
      have hupd : updateBook st id d =
          .ok ({ st with
                  books := st.books.map (fun b => if b.id == id then applyUpd b d else b) },
               some (applyUpd book d)) := by
        unfold updateBook
        rw [hbook, hguard, hconfb]
        simp only [Bool.false_eq_true, if_false]
        have hfind : getBookById
            { st with
                books := st.books.map (fun b => if b.id == id then applyUpd b d else b) } id =
            some (applyUpd book d) := by
          unfold getBookById
          show (st.books.map (fun b => if b.id == id then applyUpd b d else b)).find?
              (fun b => b.id == id) = _
          rw [List.find?_map]
          have hp : ((fun b : Book => b.id == id) ∘
              (fun b => if b.id == id then applyUpd b d else b)) = (fun b : Book => b.id == id) := by
            funext b
            simp only [Function.comp]
            split <;> rfl
          rw [hp]
          unfold getBookById at hbook
          rw [hbook]
          have hEq : (book.id == id) = true := by simpa using List.find?_some hbook
          simp [Option.map, hEq]
        rw [hfind]
      refine ⟨hupd, ?_⟩
      unfold putBookHandler
      rw [hguard, hupd]
      simp
  · intro book hbook hti hcoll
    obtain ⟨b, hb, hisbn, hne⟩ := hcoll
    have hguard : (!truthy d.title && !truthy d.author && !truthy d.isbn) = false := by
      simp [hti]
    have hcollb : (truthy d.isbn &&
        st.books.any (fun b => b.isbn == d.isbn.getD "" && b.id != id)) = true := by
      rw [hti, Bool.true_and]
      exact List.any_eq_true.2 ⟨b, hb, by simp [hisbn, hne]⟩
    have hu : updateBook st id d = .error .uniqueViolation := by
      unfold updateBook
      rw [hbook, hguard, hcollb]
      simp
    refine ⟨hu, ?_⟩
    unfold putBookHandler
    rw [hguard, hu]
    simp

/-- Witness for claim C8: updating only the title of book 1 in cexA leaves
author, isbn and available untouched. -/
theorem updateBook_frame_witness :
    putBookHandler cexA 1 ⟨some "T2", none, none⟩ =
      (⟨[⟨1, "T2", "A", "I", true⟩], [], 2, 1⟩, 200, some ⟨1, "T2", "A", "I", true⟩) :=
  (((updateBook_frame cexA 1 ⟨some "T2", none, none⟩).2.1 (by decide)).2
    ⟨1, "T", "A", "I", true⟩ rfl (by decide)).2

/-- Claim C9: deleteBook leaves the borrows table unchanged, yet afterwards
no row of getPendingReturns or getOverdueBooks references the deleted id,
because both queries only ever return rows whose referenced book still
exists (the inner join drops orphaned loans). -/
theorem deleted_book_loans_invisible (st : DBState) (id : Nat) (now : Int) :
    ((deleteBook st id).1.borrows = st.borrows) ∧
    (∀ r ∈ getPendingReturns (deleteBook st id).1 now, r.book_id ≠ id) ∧
    (∀ r ∈ getOverdueBooks (deleteBook st id).1 now, r.book_id ≠ id) ∧
    (∀ st2 : DBState, ∀ r ∈ getPendingReturns st2 now, ∃ bk ∈ st2.books, bk.id = r.book_id) ∧
    (∀ st2 : DBState, ∀ r ∈ getOverdueBooks st2 now, ∃ bk ∈ st2.books, bk.id = r.book_id) := by
  refine ⟨rfl, ?_, ?_, ?_, ?_⟩
  · intro r hr
    obtain ⟨L, hL, bk, hbk, hid, _, _, rfl⟩ := (mem_pending_aux _ now r).1 hr
    have hne : (bk.id != id) = true := (List.mem_filter.1 hbk).2
    intro hcontra
    have : bk.id = id := by rw [← hid]; exact hcontra
    simp [this] at hne
  · intro r hr
    obtain ⟨L, hL, bk, hbk, hid, _, _, rfl⟩ := (mem_overdue_aux _ now r).1 hr
    have hne : (bk.id != id) = true := (List.mem_filter.1 hbk).2
    intro hcontra
    have : bk.id = id := by rw [← hid]; exact hcontra
    simp [this] at hne
  · intro st2 r hr
    obtain ⟨L, hL, bk, hbk, hid, _, _, rfl⟩ := (mem_pending_aux st2 now r).1 hr
    exact ⟨bk, hbk, hid.symm⟩
  · intro st2 r hr
    obtain ⟨L, hL, bk, hbk, hid, _, _, rfl⟩ := (mem_overdue_aux st2 now r).1 hr
    exact ⟨bk, hbk, hid.symm⟩

/-- Witness for claim C9: the pending row of cexB references an existing
book. -/
theorem deleted_book_loans_invisible_witness :
    ∃ bk ∈ cexB.books,
      bk.id = (⟨1, 1, "e@x.co", 0, 1209600000, false, "T", "A"⟩ : JoinedBorrow).book_id :=
  (deleted_book_loans_invisible cexB 7 0).2.2.2.1 cexB
    ⟨1, 1, "e@x.co", 0, 1209600000, false, "T", "A"⟩ (by decide)

/-- Claim C10: when the confirmation email fails after addBorrow succeeded,
the borrow endpoint responds 500 although the state change is already
committed: the book is left unavailable and the new loan record persists. -/
theorem borrow_email_failure_commits (st : DBState) (bookId : Nat) (email : String)
    (now : Int) (book : Book)
    (hid : bookId ≠ 0) (hem : validEmail email = true)
    (hbook : getBookById st bookId = some book) (hav : book.available = true) :
    borrowHandler st bookId email now false =
      ({ st with
          books := st.books.map
            (fun b => if b.id == bookId then { b with available := false } else b),
          borrows := st.borrows ++ [⟨st.nextBorrowId, bookId, email, now, now + 14 * dayMs, false⟩],
          nextBorrowId := st.nextBorrowId + 1 },
       500, none) := by
  have h0 : (bookId == 0) = false := by simp [hid]
  unfold borrowHandler addBorrow
  rw [hbook]
  simp [h0, validEmail_ne_empty hem, hem, hav]

/-- Witness for claim C10: the failed-email borrow on cexA responds 500 but
still produces the committed state cexB. -/
theorem borrow_email_failure_commits_witness :
    borrowHandler cexA 1 "e@x.co" 0 false = (cexB, 500, none) :=
  borrow_email_failure_commits cexA 1 "e@x.co" 0 ⟨1, "T", "A", "I", true⟩
    (by decide) (by decide) rfl rfl


end LibSpec
